import Mathlib

/-!
Shallow embedding of the muninn-sentinel2 product plugin
(`muninn_sentinel2.py`).  Python strings are modelled as `List Char`,
Python `datetime` values as a record of numeric components, fallible
operations (`int(...)`, `datetime.strptime`, regex match failure) as
`Option`.  Each definition mirrors one function or code fragment of the
source module; theorems below settle the specification claims.
-/

/-! ## Python string primitives -/

/-- Python slice `s[a:b]` for `0 ≤ a ≤ b` (out-of-range indices clamp). -/
def pySlice (s : List Char) (a b : Nat) : List Char :=
  (s.drop a).take (b - a)

/-- Python slice `s[-n:]`: the last `n` characters (the whole string when
shorter than `n`, matching Python's clamping). -/
def pyLastN (s : List Char) (n : Nat) : List Char :=
  s.drop (s.length - n)

/-- Python `s.replace(".", "")`: remove every `'.'` character. -/
def removeDots (s : List Char) : List Char :=
  s.filter (fun c => c ≠ '.')

/-- Numeric value of a digit string (no validation). -/
def digitsToNat (s : List Char) : Nat :=
  s.foldl (fun a c => a * 10 + (c.toNat - 48)) 0

/-- Python `int(s)`: optional surrounding spaces, optional sign, at least
one digit; anything else raises `ValueError` (modelled as `none`). -/
def pyInt (s : List Char) : Option Int :=
  let t := ((s.dropWhile (fun c => c = ' ')).reverse.dropWhile (fun c => c = ' ')).reverse
  match t with
  | '-' :: ds =>
    if ds ≠ [] ∧ ds.all Char.isDigit then some (-(digitsToNat ds : Int)) else none
  | '+' :: ds =>
    if ds ≠ [] ∧ ds.all Char.isDigit then some ((digitsToNat ds : Int)) else none
  | ds =>
    if ds ≠ [] ∧ ds.all Char.isDigit then some ((digitsToNat ds : Int)) else none

/-- `os.path.basename` (posix): everything after the last `'/'`. -/
def basename (p : List Char) : List Char :=
  (p.reverse.takeWhile (fun c => c ≠ '/')).reverse

/-- `os.path.dirname` (posix): everything up to the last `'/'`, with
trailing slashes stripped unless the head is all slashes. -/
def pyDirname (p : List Char) : List Char :=
  let tail := (p.reverse.takeWhile (fun c => c ≠ '/')).length
  let head := p.take (p.length - tail)
  if head ≠ [] ∧ head.any (fun c => c ≠ '/') then
    (head.reverse.dropWhile (fun c => c = '/')).reverse
  else
    head

/-- Root part of `os.path.splitext` applied to a basename (no `'/'`
inside): drop the final extension, except when every character before the
last dot is itself a dot (e.g. `".bashrc"`). -/
def splitextRoot (b : List Char) : List Char :=
  let extLen := (b.reverse.takeWhile (fun c => c ≠ '.')).length
  if extLen = b.length then b
  else
    let dotIdx := b.length - extLen - 1
    if (b.take dotIdx).all (fun c => c = '.') then b else b.take dotIdx

/-- Two-argument `os.path.join` (posix). -/
def pyJoin (a b : List Char) : List Char :=
  if b.head? = some '/' then b
  else if a = [] ∨ a.getLast? = some '/' then a ++ b
  else a ++ '/' :: b

/-! ## Python `datetime` -/

/-- A Python `datetime.datetime` value. -/
structure PyDatetime where
  year : Nat
  month : Nat
  day : Nat
  hour : Nat
  minute : Nat
  second : Nat
  microsecond : Nat
  deriving DecidableEq, Repr

/-- `datetime.max` = 9999-12-31 23:59:59.999999. -/
def datetimeMax : PyDatetime :=
  ⟨9999, 12, 31, 23, 59, 59, 999999⟩

def isLeap (y : Nat) : Bool :=
  y % 4 = 0 && (y % 100 ≠ 0 || y % 400 = 0)

def daysInMonth (y m : Nat) : Nat :=
  if m = 2 then (if isLeap y then 29 else 28)
  else if m = 4 ∨ m = 6 ∨ m = 9 ∨ m = 11 then 30
  else 31

/-- The `datetime` constructor's range validation (microsecond 0). -/
def mkDatetime (y mo d h mi s : Nat) : Option PyDatetime :=
  if 1 ≤ y ∧ y ≤ 9999 ∧ 1 ≤ mo ∧ mo ≤ 12 ∧ 1 ≤ d ∧ d ≤ daysInMonth y mo
      ∧ h ≤ 23 ∧ mi ≤ 59 ∧ s ≤ 59 then
    some ⟨y, mo, d, h, mi, s, 0⟩
  else none

/-- `datetime.strptime(s, "%Y%m%dT%H%M%S")`, modelled as the fixed-width
15-character layout the format describes. -/
def strptimeCompact : List Char → Option PyDatetime
  | [y1, y2, y3, y4, mo1, mo2, d1, d2, t, h1, h2, mi1, mi2, s1, s2] =>
    if t = 'T' ∧ [y1, y2, y3, y4, mo1, mo2, d1, d2, h1, h2, mi1, mi2, s1, s2].all Char.isDigit then
      mkDatetime (digitsToNat [y1, y2, y3, y4]) (digitsToNat [mo1, mo2])
        (digitsToNat [d1, d2]) (digitsToNat [h1, h2]) (digitsToNat [mi1, mi2])
        (digitsToNat [s1, s2])
    else none
  | _ => none

/-- `datetime.strptime(s, "UTC=%Y-%m-%dT%H:%M:%S")`, fixed-width layout. -/
def strptimeUTC : List Char → Option PyDatetime
  | ['U', 'T', 'C', '=', y1, y2, y3, y4, '-', mo1, mo2, '-', d1, d2, 'T',
     h1, h2, ':', mi1, mi2, ':', s1, s2] =>
    if [y1, y2, y3, y4, mo1, mo2, d1, d2, h1, h2, mi1, mi2, s1, s2].all Char.isDigit then
      mkDatetime (digitsToNat [y1, y2, y3, y4]) (digitsToNat [mo1, mo2])
        (digitsToNat [d1, d2]) (digitsToNat [h1, h2]) (digitsToNat [mi1, mi2])
        (digitsToNat [s1, s2])
    else none
  | _ => none

/-! ## Fixed-offset derived fields (claim C1)

These embed the identifier-slicing assignments of `SAFEProduct._analyze_mtd`
(line 227), `PDIProduct._analyze_inventory_metadata` (lines 315, 317) and
`PDIProduct._analyze_mtd_tl_l2` (lines 385-388), as functions of the
identifier text read from the metadata document. -/

/-- `_analyze_mtd`: `absolute_orbit = int(datatake_id[21:27])`. -/
def SAFEProduct.mtd_absolute_orbit (datatake_id : List Char) : Option Int :=
  pyInt (pySlice datatake_id 21 27)

/-- `_analyze_inventory_metadata`: `absolute_orbit = int(datatake_id[21:27])`
where `datatake_id` is the `Group_ID` text. -/
def PDIProduct.inventory_absolute_orbit (datatake_id : List Char) : Option Int :=
  pyInt (pySlice datatake_id 21 27)

/-- `_analyze_inventory_metadata`:
`processing_baseline = int(datatake_id[-5:].replace(".", ""))`. -/
def PDIProduct.inventory_processing_baseline (datatake_id : List Char) : Option Int :=
  pyInt (removeDots (pyLastN datatake_id 5))

/-- `_analyze_mtd_tl_l2`: `absolute_orbit = int(tile_id[42:48])`. -/
def PDIProduct.mtd_tl_l2_absolute_orbit (tile_id : List Char) : Option Int :=
  pyInt (pySlice tile_id 42 48)

/-- `_analyze_mtd_tl_l2`: `tile_number = tile_id[50:55]`. -/
def PDIProduct.mtd_tl_l2_tile_number (tile_id : List Char) : List Char :=
  pySlice tile_id 50 55

/-- `_analyze_mtd_tl_l2`: `processing_facility = tile_id[20:24]`. -/
def PDIProduct.mtd_tl_l2_processing_facility (tile_id : List Char) : List Char :=
  pySlice tile_id 20 24

/-- `_analyze_mtd_tl_l2`:
`processing_baseline = int(tile_id[-5:].replace(".", ""))`. -/
def PDIProduct.mtd_tl_l2_processing_baseline (tile_id : List Char) : Option Int :=
  pyInt (removeDots (pyLastN tile_id 5))

/-- Representative datatake identifier (format `GSSS_YYYYMMDDTHHMMSS_RRRRRR_Nxx.yy`). -/
def exampleDatatakeId : List Char :=
  ("GS2A_20210105T120000_012345_N02.14").data

/-- Representative L2A tile identifier. -/
def exampleTileId : List Char :=
  ("S2A_OPER_MSI_L2A_TL_SGS__20210105T120000_A012345_T32TMT_N02.14").data

/-- C1: every fixed-offset derived field is extracted at exactly the
documented offsets: absolute orbit at characters 21-27 of the datatake
identifier (SAFE user products, L1C inventory metadata) or 42-48 of the
tile identifier (L2A tile metadata); tile number at characters 50-55 and
processing facility at characters 20-24 of the tile identifier; processing
baseline as the last 5 characters of the identifier with the decimal point
removed, parsed as an integer.  Concrete conjuncts evaluate the
extractions on representative identifiers. -/
theorem c1_fixed_offset_slicing :
    (∀ dt : List Char, SAFEProduct.mtd_absolute_orbit dt = pyInt (pySlice dt 21 27)) ∧
    (∀ dt : List Char, PDIProduct.inventory_absolute_orbit dt = pyInt (pySlice dt 21 27)) ∧
    (∀ dt : List Char,
      PDIProduct.inventory_processing_baseline dt = pyInt (removeDots (pyLastN dt 5))) ∧
    (∀ tid : List Char, PDIProduct.mtd_tl_l2_absolute_orbit tid = pyInt (pySlice tid 42 48)) ∧
    (∀ tid : List Char, PDIProduct.mtd_tl_l2_tile_number tid = pySlice tid 50 55) ∧
    (∀ tid : List Char, PDIProduct.mtd_tl_l2_processing_facility tid = pySlice tid 20 24) ∧
    (∀ tid : List Char,
      PDIProduct.mtd_tl_l2_processing_baseline tid = pyInt (removeDots (pyLastN tid 5))) ∧
    SAFEProduct.mtd_absolute_orbit exampleDatatakeId = some 12345 ∧
    PDIProduct.inventory_absolute_orbit exampleDatatakeId = some 12345 ∧
    PDIProduct.inventory_processing_baseline exampleDatatakeId = some 214 ∧
    PDIProduct.mtd_tl_l2_absolute_orbit exampleTileId = some 12345 ∧
    PDIProduct.mtd_tl_l2_tile_number exampleTileId = ("32TMT").data ∧
    PDIProduct.mtd_tl_l2_processing_facility exampleTileId = ("SGS_").data ∧
    PDIProduct.mtd_tl_l2_processing_baseline exampleTileId = some 214 := by
  refine ⟨fun _ => rfl, fun _ => rfl, fun _ => rfl, fun _ => rfl, fun _ => rfl,
    fun _ => rfl, fun _ => rfl, ?_, ?_, ?_, ?_, ?_, ?_, ?_⟩ <;> decide

/-! ## Python `sorted` on strings -/

/-- Python string comparison `a < b` / `a <= b`: lexicographic on code
points (`Char` carries the code point; Mathlib's `Char` order compares it). -/
def pyLe : List Char → List Char → Bool
  | [], _ => true
  | _ :: _, [] => false
  | a :: as, b :: bs =>
    if a < b then true
    else if a = b then pyLe as bs
    else false

/-- One step of the (stable) insertion sort modelling Python `sorted`. -/
def insertSorted (x : List Char) : List (List Char) → List (List Char)
  | [] => [x]
  | y :: ys => if pyLe x y then x :: y :: ys else y :: insertSorted x ys

/-- Python `sorted(paths)`: stable ascending sort by string comparison. -/
def pySorted (l : List (List Char)) : List (List Char) :=
  l.foldr insertSorted []

theorem pyLe_total (a b : List Char) : pyLe a b = true ∨ pyLe b a = true := by
  induction a generalizing b with
  | nil => exact Or.inl rfl
  | cons x xs ih =>
    cases b with
    | nil => exact Or.inr rfl
    | cons y ys =>
      rcases lt_trichotomy x y with h | h | h
      · left; simp [pyLe, h]
      · subst h
        rcases ih ys with h2 | h2
        · left; simp [pyLe, h2]
        · right; simp [pyLe, h2]
      · right; simp [pyLe, h]

theorem pyLe_antisymm {a b : List Char} (hab : pyLe a b = true) (hba : pyLe b a = true) :
    a = b := by
  induction a generalizing b with
  | nil =>
    cases b with
    | nil => rfl
    | cons y ys => simp [pyLe] at hba
  | cons x xs ih =>
    cases b with
    | nil => simp [pyLe] at hab
    | cons y ys =>
      rcases lt_trichotomy x y with h | h | h
      · exfalso
        have : ¬ (y < x) := lt_asymm h
        simp [pyLe, h, this, h.ne'] at hba
      · subst h
        simp only [pyLe, lt_irrefl, if_false, if_pos rfl] at hab hba
        exact congrArg (x :: ·) (ih hab hba)
      · exfalso
        have : ¬ (x < y) := lt_asymm h
        simp [pyLe, h, this, h.ne'] at hab

theorem pySorted_pair (a b : List Char) : pySorted [a, b] = pySorted [b, a] := by
  show insertSorted a (insertSorted b []) = insertSorted b (insertSorted a [])
  simp only [insertSorted]
  rcases h1 : pyLe a b with _ | _ <;> rcases h2 : pyLe b a with _ | _
  · rcases pyLe_total a b with h | h
    · rw [h1] at h; cases h
    · rw [h2] at h; cases h
  · rfl
  · rfl
  · rw [pyLe_antisymm h1 h2]

theorem pySorted_length (l : List (List Char)) : (pySorted l).length = l.length := by
  have step : ∀ x ys, (insertSorted x ys).length = ys.length + 1 := by
    intro x ys
    induction ys with
    | nil => rfl
    | cons y ys ih =>
      simp only [insertSorted]
      rcases h : pyLe x y with _ | _
      · simp [List.length_cons, ih]
      · simp [List.length_cons]
  induction l with
  | nil => rfl
  | cons p ps ih =>
    show (insertSorted p (pySorted ps)).length = ps.length + 1
    rw [step, ih]

/-! ## The shared `identify` (claim C2)

`Sentinel2Product.identify` (lines 163-166) is shared by every single-file
kind; the regex test `re.match(self.filename_pattern, basename) is not None`
is abstracted as a boolean matcher on the basename. -/

/-- `Sentinel2Product.identify(paths)`. -/
def Sentinel2Product.identify (isMatch : List Char → Bool) (paths : List (List Char)) : Bool :=
  if paths.length ≠ 1 then false
  else isMatch (basename (paths.headD []))

/-! ## EOF-family filename grammar

The default EOF base pattern (lines 456-465):
`mission _ file_class _ product_type _ processing_facility _ creation_date
_ V validity_start _ validity_stop`, with `mission = S2(_|A|B|C|D)`,
`file_class`/`processing_facility` four arbitrary non-newline characters,
and the three timestamps fifteen characters drawn from `[0-9T]`.  All
fields are fixed width, so `re.match` is equivalent to this deterministic
positional parser; it returns the named captures plus the unconsumed rest
of the string (for the suffix variants of the pattern). -/

structure EOFNameAttrs where
  mission : List Char
  file_class : List Char
  product_type : List Char
  processing_facility : List Char
  creation_date : List Char
  validity_start : List Char
  validity_stop : List Char
  deriving DecidableEq, Repr

def isDigitOrT (c : Char) : Bool :=
  c.isDigit || c = 'T'

/-- `re.match` of the default EOF base pattern against `name`; `pt` is the
literal `product_type` of the kind.  Layout of the match (all widths
fixed, `n = pt.length`): mission at 0-2, `'_'` at 3, file_class at 4-7,
`'_'` at 8, the product-type literal at 9..8+n, `'_'` at 9+n,
processing_facility at 10+n..13+n, `'_'` at 14+n, creation_date at
15+n..29+n, `'_'` at 30+n, `'V'` at 31+n, validity_start at 32+n..46+n,
`'_'` at 47+n, validity_stop at 48+n..62+n. -/
def parseEOFBase (pt : List Char) (name : List Char) : Option (EOFNameAttrs × List Char) :=
  let n := pt.length
  if 63 + n ≤ name.length ∧
      name.getD 0 ' ' = 'S' ∧ name.getD 1 ' ' = '2' ∧
      (name.getD 2 ' ' = '_' ∨ name.getD 2 ' ' = 'A' ∨ name.getD 2 ' ' = 'B' ∨
       name.getD 2 ' ' = 'C' ∨ name.getD 2 ' ' = 'D') ∧
      name.getD 3 ' ' = '_' ∧
      (pySlice name 4 8).all (fun c => c ≠ '\n') ∧
      name.getD 8 ' ' = '_' ∧
      pySlice name 9 (9 + n) = pt ∧
      name.getD (9 + n) ' ' = '_' ∧
      (pySlice name (10 + n) (14 + n)).all (fun c => c ≠ '\n') ∧
      name.getD (14 + n) ' ' = '_' ∧
      (pySlice name (15 + n) (30 + n)).all isDigitOrT ∧
      name.getD (30 + n) ' ' = '_' ∧
      name.getD (31 + n) ' ' = 'V' ∧
      (pySlice name (32 + n) (47 + n)).all isDigitOrT ∧
      name.getD (47 + n) ' ' = '_' ∧
      (pySlice name (48 + n) (63 + n)).all isDigitOrT then
    some (⟨pySlice name 0 3, pySlice name 4 8, pt, pySlice name (10 + n) (14 + n),
      pySlice name (15 + n) (30 + n), pySlice name (32 + n) (47 + n),
      pySlice name (48 + n) (63 + n)⟩, name.drop (63 + n))
  else
    none

/-- `re.match(pattern + suffix + "$", name)` for a literal suffix appended
to the EOF base pattern.  Python's `$` also matches just before a final
newline, hence the second alternative. -/
def EOFProduct.matchWithSuffix (pt suffix name : List Char) : Bool :=
  match parseEOFBase pt name with
  | some (_, rest) => rest = suffix ∨ rest = suffix ++ ['\n']
  | none => false

/-- `re.match(self.filename_pattern, name)` for an EOF-family kind: the
suffix appended to the base pattern in `EOFProduct.__init__`
(lines 468-475) depends on `split` and `packaged`; the split unpackaged
pattern carries no suffix and no end anchor. -/
def EOFProduct.matchFilename (split packaged : Bool) (pt ext name : List Char) : Bool :=
  if split then
    if packaged then EOFProduct.matchWithSuffix pt (('.' :: ("TGZ").data)) name
    else
      match parseEOFBase pt name with
      | some _ => true
      | none => false
  else
    if packaged then EOFProduct.matchWithSuffix pt ('.' :: ext ++ '.' :: ("zip").data) name
    else EOFProduct.matchWithSuffix pt ('.' :: ext) name

/-- `EOFProduct.identify(paths)` (lines 484-497). -/
def EOFProduct.identify (split packaged : Bool) (pt ext : List Char)
    (paths : List (List Char)) : Bool :=
  if split && !packaged then
    if paths.length ≠ 2 then false
    else
      let ps := pySorted paths
      if !(EOFProduct.matchWithSuffix pt ('.' :: ("DBL").data) (basename (ps.headD []))) then
        false
      else if !(EOFProduct.matchWithSuffix pt ('.' :: ("HDR").data) (basename (ps.getD 1 []))) then
        false
      else true
  else
    if paths.length ≠ 1 then false
    else EOFProduct.matchFilename split packaged pt ext (basename (paths.headD []))

/-- C2: for every product kind, `identify` returns true iff the path-set
has the right shape: single-file kinds require exactly one path whose
basename matches the kind's filename pattern; unpackaged multi-file
(header/data) kinds require exactly two paths which, sorted ascending,
give a `.DBL` match first and a `.HDR` match second.  Every other shape
yields `false` (the functions are total and never raise). -/
theorem c2_identify_iff :
    (∀ (isMatch : List Char → Bool) (paths : List (List Char)),
      Sentinel2Product.identify isMatch paths = true ↔
        ∃ p, paths = [p] ∧ isMatch (basename p) = true) ∧
    (∀ (pt ext : List Char) (paths : List (List Char)),
      (EOFProduct.identify true false pt ext paths = true ↔
        paths.length = 2 ∧
        EOFProduct.matchWithSuffix pt ('.' :: ("DBL").data)
          (basename ((pySorted paths).headD [])) = true ∧
        EOFProduct.matchWithSuffix pt ('.' :: ("HDR").data)
          (basename ((pySorted paths).getD 1 [])) = true) ∧
      (EOFProduct.identify false false pt ext paths = true ↔
        ∃ p, paths = [p] ∧ EOFProduct.matchFilename false false pt ext (basename p) = true) ∧
      (EOFProduct.identify false true pt ext paths = true ↔
        ∃ p, paths = [p] ∧ EOFProduct.matchFilename false true pt ext (basename p) = true) ∧
      (EOFProduct.identify true true pt ext paths = true ↔
        ∃ p, paths = [p] ∧ EOFProduct.matchFilename true true pt ext (basename p) = true)) := by
  constructor
  · intro isMatch paths
    match paths with
    | [] => simp [Sentinel2Product.identify]
    | [p] => simp [Sentinel2Product.identify]
    | p :: q :: r => simp [Sentinel2Product.identify]
  · intro pt ext paths
    refine ⟨?_, ?_, ?_, ?_⟩
    · by_cases h : paths.length = 2 <;> simp [EOFProduct.identify, h]
    · match paths with
      | [] => simp [EOFProduct.identify]
      | [p] => simp [EOFProduct.identify]
      | p :: q :: r => simp [EOFProduct.identify]
    · match paths with
      | [] => simp [EOFProduct.identify]
      | [p] => simp [EOFProduct.identify]
      | p :: q :: r => simp [EOFProduct.identify]
    · match paths with
      | [] => simp [EOFProduct.identify]
      | [p] => simp [EOFProduct.identify]
      | p :: q :: r => simp [EOFProduct.identify]

/-! ## EOF-family `analyze` (lines 519-562) -/

/-- `parse_filename` (lines 157-161) for an EOF-family kind: match the
kind's full `filename_pattern` against `os.path.basename(path)` and
return the named captures.  The suffix and end anchor of the pattern
follow `EOFProduct.__init__` (lines 468-475); Python's `$` also matches
just before a trailing newline. -/
def EOFProduct.parse_filename (split packaged : Bool) (pt ext : List Char)
    (path : List Char) : Option EOFNameAttrs :=
  match parseEOFBase pt (basename path) with
  | none => none
  | some (a, rest) =>
    if split then
      if packaged then
        if rest = '.' :: ("TGZ").data ∨ rest = ('.' :: ("TGZ").data) ++ ['\n'] then some a
        else none
      else some a
    else
      if packaged then
        if rest = ('.' :: ext) ++ '.' :: ("zip").data ∨
            rest = (('.' :: ext) ++ '.' :: ("zip").data) ++ ['\n'] then some a
        else none
      else
        if rest = '.' :: ext ∨ rest = ('.' :: ext) ++ ['\n'] then some a
        else none

/-- Mission normalization shared by every `analyze`
(lines 253-255, 408-410, 540-542): when the third character of the
captured mission code is `'_'`, keep only the first two characters.
(Python indexes `mission[2]`; every call site receives the 3-character
regex capture `S2(_|A|B|C|D)`.) -/
def normalize_mission (m : List Char) : List Char :=
  if m.getD 2 ' ' = '_' then m.take 2 else m

/-- Lines 534-537: the filename validity-stop sentinel `99999999T999999`
maps to `datetime.max`; any other capture is parsed with
`%Y%m%dT%H%M%S`. -/
def EOFProduct.filename_validity_stop (s : List Char) : Option PyDatetime :=
  if s = ("99999999T999999").data then some datetimeMax
  else strptimeCompact s

/-- Lines 551-555: the header validity-stop sentinel
`UTC=9999-99-99T99:99:99` maps to `datetime.max`; any other text is
parsed with `UTC=%Y-%m-%dT%H:%M:%S`. -/
def EOFProduct.header_validity_stop (s : List Char) : Option PyDatetime :=
  if s = ("UTC=9999-99-99T99:99:99").data then some datetimeMax
  else strptimeUTC s

/-- The texts read from the `Earth_Explorer_Header` fixed header by
`EOFProduct.analyze` (lines 549-560). -/
structure HeaderDoc where
  validity_start : List Char
  validity_stop : List Char
  creation_date : List Char
  system : List Char
  creator : List Char
  creator_version : List Char
  deriving DecidableEq, Repr

/-- The property bag produced by `EOFProduct.analyze` (core and sentinel2
fields it sets; fields not set by a given path stay `none`). -/
structure ProductProperties where
  product_name : List Char
  creation_date : Option PyDatetime
  validity_start : Option PyDatetime
  validity_stop : Option PyDatetime
  mission : Option (List Char)
  processing_facility : Option (List Char)
  processor_name : Option (List Char)
  processor_version : Option (List Char)
  deriving DecidableEq, Repr

/-- An all-empty header document (used where a concrete `HeaderDoc` value
is needed but its content is irrelevant). -/
def emptyHeader : HeaderDoc :=
  ⟨[], [], [], [], [], []⟩

/-- `EOFProduct.analyze(paths, filename_only)` (lines 519-562).  The header
document that `read_xml_header` would deliver is passed as the explicit
argument `hdr` (the filesystem content); a Python exception — failed
filename match, `strptime` failure — is modelled as `none`. -/
def EOFProduct.analyze (split packaged : Bool) (pt ext : List Char) (hdr : HeaderDoc)
    (paths : List (List Char)) (filename_only : Bool) : Option ProductProperties :=
  let parsed :=
    if split && !packaged then
      (EOFProduct.parse_filename split packaged pt ext
          (splitextRoot (basename (paths.headD [])))).map
        (fun a => (a, (pySorted paths).getLastD []))
    else
      (EOFProduct.parse_filename split packaged pt ext (paths.headD [])).map
        (fun a => (a, paths.headD []))
  match parsed with
  | none => none
  | some (attrs, inpath) =>
    match strptimeCompact attrs.creation_date, strptimeCompact attrs.validity_start,
        EOFProduct.filename_validity_stop attrs.validity_stop with
    | some cd, some vs, some vst =>
      let base : ProductProperties :=
        { product_name := splitextRoot (basename inpath)
          creation_date := some cd
          validity_start := some vs
          validity_stop := some vst
          mission := some (normalize_mission attrs.mission)
          processing_facility := some attrs.processing_facility
          processor_name := none
          processor_version := none }
      if filename_only then some base
      else
        match strptimeUTC hdr.validity_start, EOFProduct.header_validity_stop hdr.validity_stop,
            strptimeUTC hdr.creation_date with
        | some hvs, some hvst, some hcd =>
          some { base with
            validity_start := some hvs
            validity_stop := some hvst
            creation_date := some hcd
            processing_facility := some hdr.system
            processor_name := some hdr.creator
            processor_version := some hdr.creator_version }
        | _, _, _ => none
    | _, _, _ => none

/-- `IERSProduct.analyze(paths, filename_only)` (lines 604-605): delegate
to the parent `EOFProduct.analyze` with `filename_only=True`
(`IERSProduct` is constructed with `split=False`, `ext="txt"`). -/
def IERSProduct.analyze (packaged : Bool) (hdr : HeaderDoc)
    (paths : List (List Char)) (_filename_only : Bool) : Option ProductProperties :=
  EOFProduct.analyze false packaged (("AUX_UT1UTC").data) (("txt").data) hdr paths true

/-- C3: in both extraction paths of the EOF family, the all-9s
validity-stop sentinel maps to `datetime.max`: the filename capture
`99999999T999999` in filename-only analysis and the header text
`UTC=9999-99-99T99:99:99` in document analysis; every other value goes
through the ordinary `strptime` parse.  The final conjuncts evaluate
`EOFProduct.analyze` itself on a sentinel-carrying product for both
paths. -/
theorem c3_validity_stop_sentinel :
    EOFProduct.filename_validity_stop (("99999999T999999").data) = some datetimeMax ∧
    EOFProduct.header_validity_stop (("UTC=9999-99-99T99:99:99").data) = some datetimeMax ∧
    (∀ s : List Char, s ≠ ("99999999T999999").data →
      EOFProduct.filename_validity_stop s = strptimeCompact s) ∧
    (∀ s : List Char, s ≠ ("UTC=9999-99-99T99:99:99").data →
      EOFProduct.header_validity_stop s = strptimeUTC s) ∧
    (EOFProduct.analyze false false (("AUX_POEORB").data) (("EOF").data) emptyHeader
      [("S2B_OPER_AUX_POEORB_PDMC_20200103T000000_V20200101T000000_99999999T999999.EOF").data]
      true).map (fun p => p.validity_stop) = some (some datetimeMax) ∧
    (EOFProduct.analyze false false (("AUX_POEORB").data) (("EOF").data)
      { emptyHeader with
        validity_start := ("UTC=2020-01-01T00:00:00").data
        validity_stop := ("UTC=9999-99-99T99:99:99").data
        creation_date := ("UTC=2020-01-03T00:00:00").data }
      [("S2B_OPER_AUX_POEORB_PDMC_20200103T000000_V20200101T000000_20200102T000000.EOF").data]
      false).map (fun p => p.validity_stop) = some (some datetimeMax) := by
  refine ⟨rfl, rfl, ?_, ?_, by decide, by decide⟩
  · intro s hs
    simp [EOFProduct.filename_validity_stop, hs]
  · intro s hs
    simp [EOFProduct.header_validity_stop, hs]

/-- Witness for C3: a non-sentinel stop capture goes through the ordinary
parse (both paths), instantiated at concrete inputs. -/
theorem c3_validity_stop_sentinel_witness :
    EOFProduct.filename_validity_stop (("20200102T060000").data)
      = strptimeCompact (("20200102T060000").data) ∧
    EOFProduct.header_validity_stop (("UTC=2020-01-02T06:00:00").data)
      = strptimeUTC (("UTC=2020-01-02T06:00:00").data) :=
  ⟨c3_validity_stop_sentinel.2.2.1 (("20200102T060000").data) (by decide),
   c3_validity_stop_sentinel.2.2.2.1 (("UTC=2020-01-02T06:00:00").data) (by decide)⟩

/-- C9: the plain-text time-correction kind (`AUX_UT1UTC`, `IERSProduct`)
always forces filename-only extraction: for every value of the
`filename_only` argument and every header document content, its `analyze`
equals the parent EOF-family `analyze` with `filename_only = true`, and
the result never depends on the header document. -/
theorem c9_iers_forces_filename_only :
    ∀ (packaged : Bool) (hdr hdr2 : HeaderDoc) (paths : List (List Char))
      (filename_only : Bool),
      IERSProduct.analyze packaged hdr paths filename_only =
        EOFProduct.analyze false packaged (("AUX_UT1UTC").data) (("txt").data)
          hdr2 paths true := by
  intro packaged hdr hdr2 paths filename_only
  rfl

/-- C7: mission normalization: the 3-character mission capture
`S2(_|A|B|C|D)` is reduced to the 2-character prefix `S2` exactly when its
third character is `'_'`, and kept unchanged otherwise.  The final
conjuncts evaluate `EOFProduct.analyze` on an `S2_`-named and an
`S2A`-named product. -/
theorem c7_mission_normalization :
    (∀ c : Char,
      normalize_mission ['S', '2', c] = if c = '_' then ['S', '2'] else ['S', '2', c]) ∧
    (EOFProduct.analyze false false (("AUX_POEORB").data) (("EOF").data) emptyHeader
      [("S2__OPER_AUX_POEORB_PDMC_20200103T000000_V20200101T000000_20200102T000000.EOF").data]
      true).map (fun p => p.mission) = some (some (("S2").data)) ∧
    (EOFProduct.analyze false false (("AUX_POEORB").data) (("EOF").data) emptyHeader
      [("S2A_OPER_AUX_POEORB_PDMC_20200103T000000_V20200101T000000_20200102T000000.EOF").data]
      true).map (fun p => p.mission) = some (some (("S2A").data)) := by
  refine ⟨?_, by decide, by decide⟩
  intro c
  by_cases h : c = '_' <;> simp [normalize_mission, h]

/-- Counterexample for C10: `identify` also accepts a `.DBL`/`.HDR` pair
whose stems differ (here: different creation dates, chosen so the sorted
order still puts the `.DBL` file first); `analyze` parses the filename
fields from whichever path is listed first, so the two orders give
different property bags. -/
theorem c10_order_dependence :
    EOFProduct.identify true false (("AUX_GNSSRD").data) (("EOF").data)
      [("S2A_OPER_AUX_GNSSRD_PDMC_20200101T000000_V20200101T000000_20200102T000000.DBL").data,
       ("S2A_OPER_AUX_GNSSRD_PDMC_20200101T000001_V20200101T000000_20200102T000000.HDR").data]
      = true ∧
    EOFProduct.identify true false (("AUX_GNSSRD").data) (("EOF").data)
      [("S2A_OPER_AUX_GNSSRD_PDMC_20200101T000001_V20200101T000000_20200102T000000.HDR").data,
       ("S2A_OPER_AUX_GNSSRD_PDMC_20200101T000000_V20200101T000000_20200102T000000.DBL").data]
      = true ∧
    EOFProduct.analyze true false (("AUX_GNSSRD").data) (("EOF").data) emptyHeader
      [("S2A_OPER_AUX_GNSSRD_PDMC_20200101T000000_V20200101T000000_20200102T000000.DBL").data,
       ("S2A_OPER_AUX_GNSSRD_PDMC_20200101T000001_V20200101T000000_20200102T000000.HDR").data]
      true ≠
    EOFProduct.analyze true false (("AUX_GNSSRD").data) (("EOF").data) emptyHeader
      [("S2A_OPER_AUX_GNSSRD_PDMC_20200101T000001_V20200101T000000_20200102T000000.HDR").data,
       ("S2A_OPER_AUX_GNSSRD_PDMC_20200101T000000_V20200101T000000_20200102T000000.DBL").data]
      true := by decide

/-- C10 (amended): filename-only `analyze` of an unpackaged multi-file
EOF product is invariant under swapping the two paths provided their
basenames share the same stem (equal after removing the final extension)
— which a `.DBL`/`.HDR` pair of one product satisfies.  The header file
used is the sorted-last path (order-invariant); the filename fields are
parsed from the stem of the first-listed path, hence the stem condition. -/
theorem c10_amended_permutation_invariance :
    ∀ (pt ext a b : List Char) (hdr : HeaderDoc),
      splitextRoot (basename a) = splitextRoot (basename b) →
      EOFProduct.analyze true false pt ext hdr [a, b] true =
        EOFProduct.analyze true false pt ext hdr [b, a] true := by
  intro pt ext a b hdr h
  simp only [EOFProduct.analyze, List.headD_cons, pySorted_pair a b, h]
  rfl

/-- Witness for C10 (amended): a concrete equal-stem `.DBL`/`.HDR` pair,
analyzed in both orders through the amended theorem. -/
theorem c10_amended_permutation_invariance_witness :
    EOFProduct.analyze true false (("AUX_GNSSRD").data) (("EOF").data) emptyHeader
      [("S2A_OPER_AUX_GNSSRD_PDMC_20200101T000000_V20200101T000000_20200102T000000.DBL").data,
       ("S2A_OPER_AUX_GNSSRD_PDMC_20200101T000000_V20200101T000000_20200102T000000.HDR").data]
      true =
    EOFProduct.analyze true false (("AUX_GNSSRD").data) (("EOF").data) emptyHeader
      [("S2A_OPER_AUX_GNSSRD_PDMC_20200101T000000_V20200101T000000_20200102T000000.HDR").data,
       ("S2A_OPER_AUX_GNSSRD_PDMC_20200101T000000_V20200101T000000_20200102T000000.DBL").data]
      true :=
  c10_amended_permutation_invariance (("AUX_GNSSRD").data) (("EOF").data) _ _ emptyHeader
    (by decide)

/-! ## `read_xml_component` (lines 178-194) and `read_xml_header` (lines 499-517)

The filesystem/container access is abstracted to the *location* the code
opens: which container (or plain directory file) and which entry name.
The `Exception("Unsupported package format ...")` raised for a package
format other than `zip`/`tar` is modelled as the `Except.error` case,
carrying the offending format string. -/

/-- Where `read_xml_component` reads the document from. -/
inductive DocLocation where
  /-- Unpackaged: `open(os.path.join(filepath, componentpath))`. -/
  | dirFile (path : List Char)
  /-- `zipfile.ZipFile(filepath)` entry `entry`. -/
  | zipEntry (container entry : List Char)
  /-- `tarfile.open(filepath, "r")` entry `entry`. -/
  | tarEntry (container entry : List Char)
  deriving DecidableEq, Repr

/-- `Sentinel2Product.read_xml_component(filepath, componentpath)`.
The descriptor state `self.packaged`, `self.is_multi_file_product` and
`self.package_format` are explicit arguments. -/
def Sentinel2Product.read_xml_component (packaged multi : Bool) (package_format : List Char)
    (filepath componentpath : List Char) : Except (List Char) DocLocation :=
  if packaged then
    let comp :=
      if !multi then pyJoin (splitextRoot (basename filepath)) componentpath
      else componentpath
    if package_format = ("zip").data then .ok (.zipEntry filepath comp)
    else if package_format = ("tar").data then .ok (.tarEntry filepath comp)
    else .error package_format
  else
    .ok (.dirFile (pyJoin filepath componentpath))

/-- Where `EOFProduct.read_xml_header` reads the header from
(lines 499-517); the two single-file variants additionally narrow the
parsed tree to `./Earth_Explorer_Header`. -/
inductive HeaderLocation where
  /-- Unpackaged split product: the standalone `.HDR` file itself. -/
  | plainFile (path : List Char)
  /-- Packaged split product: entry of `tarfile.open(filepath, "r:gz")`. -/
  | tgzEntry (container entry : List Char)
  /-- Packaged single-file product: zip entry, narrowed to the header element. -/
  | zipHeaderEntry (container entry : List Char)
  /-- Unpackaged single-file product: the file, narrowed to the header element. -/
  | plainHeaderFile (path : List Char)
  deriving DecidableEq, Repr

/-- `EOFProduct.read_xml_header(filepath)` with the descriptor state
explicit. -/
def EOFProduct.read_xml_header (split packaged : Bool) (filepath : List Char) : HeaderLocation :=
  if split then
    if packaged then
      .tgzEntry filepath (splitextRoot (basename filepath) ++ '.' :: ("HDR").data)
    else
      .plainFile filepath
  else
    if packaged then
      .zipHeaderEntry filepath (splitextRoot (basename filepath) ++ '.' :: ("EOF").data)
    else
      .plainHeaderFile filepath

/-- `self.package_format` as set by the constructors: `SAFEProduct`
(line 202) uses zip. -/
def SAFEProduct.package_format : List Char :=
  ("zip").data

/-- `PDIProduct.__init__` (line 283): tar. -/
def PDIProduct.package_format : List Char :=
  ("tar").data

/-- `EOFProduct.__init__` (lines 450-453): `tgz` for split (multi-file)
products, `zip` otherwise. -/
def EOFProduct.package_format (split : Bool) : List Char :=
  if split then ("tgz").data else ("zip").data

/-- C4: document-location resolution of the metadata reader: unpackaged
products read the document relative to the product path treated as a
directory; packaged single-file products prefix the document path with
the product's base name (basename of the product path minus its final
extension); packaged multi-file products apply no prefix.  Stated for
both supported container formats. -/
theorem c4_component_resolution :
    ∀ (multi : Bool) (fmt filepath componentpath : List Char),
      Sentinel2Product.read_xml_component false multi fmt filepath componentpath
        = .ok (.dirFile (pyJoin filepath componentpath)) ∧
      Sentinel2Product.read_xml_component true false (("zip").data) filepath componentpath
        = .ok (.zipEntry filepath (pyJoin (splitextRoot (basename filepath)) componentpath)) ∧
      Sentinel2Product.read_xml_component true true (("zip").data) filepath componentpath
        = .ok (.zipEntry filepath componentpath) ∧
      Sentinel2Product.read_xml_component true false (("tar").data) filepath componentpath
        = .ok (.tarEntry filepath (pyJoin (splitextRoot (basename filepath)) componentpath)) ∧
      Sentinel2Product.read_xml_component true true (("tar").data) filepath componentpath
        = .ok (.tarEntry filepath componentpath) := by
  intro multi fmt filepath componentpath
  refine ⟨rfl, rfl, rfl, by simp [Sentinel2Product.read_xml_component], by
    simp [Sentinel2Product.read_xml_component]⟩

/-- Counterexample for C5: `tgz` is a declared package format (that of
packaged split EOF products), yet `read_xml_component` does not read such
containers: it raises the unsupported-package-format error instead of
returning a document. -/
theorem c5_tgz_unsupported :
    EOFProduct.package_format true = ("tgz").data ∧
    Sentinel2Product.read_xml_component true true (EOFProduct.package_format true)
      (("product.TGZ").data) (("doc.xml").data)
      = .error (("tgz").data) := by
  exact ⟨rfl, rfl⟩

/-- C5 (amended): `read_xml_component` reads a named entry from zip and
tar containers; for every packaged descriptor whose declared package
format is neither zip nor tar — in particular `tgz`, the declared format
of packaged multi-file EOF products — it raises the
unsupported-package-format error instead of returning a document.  The
gzip-compressed tar of those products is read by `read_xml_header`
instead. -/
theorem c5_amended_container_formats :
    ∀ (multi : Bool) (fmt filepath componentpath : List Char),
      (∃ entry, Sentinel2Product.read_xml_component true multi (("zip").data)
        filepath componentpath = .ok (.zipEntry filepath entry)) ∧
      (∃ entry, Sentinel2Product.read_xml_component true multi (("tar").data)
        filepath componentpath = .ok (.tarEntry filepath entry)) ∧
      (fmt ≠ ("zip").data → fmt ≠ ("tar").data →
        Sentinel2Product.read_xml_component true multi fmt filepath componentpath
          = .error fmt) ∧
      EOFProduct.read_xml_header true true filepath
        = .tgzEntry filepath (splitextRoot (basename filepath) ++ '.' :: ("HDR").data) := by
  intro multi fmt filepath componentpath
  refine ⟨?_, ?_, ?_, rfl⟩
  · cases multi
    · exact ⟨_, rfl⟩
    · exact ⟨_, rfl⟩
  · cases multi
    · exact ⟨_, rfl⟩
    · exact ⟨_, rfl⟩
  · intro h1 h2
    cases multi <;> simp [Sentinel2Product.read_xml_component, h1, h2]

/-- Witness for C5 (amended): the `tgz` format of a packaged split EOF
product hits the unsupported-package-format error at a concrete input. -/
theorem c5_amended_container_formats_witness :
    Sentinel2Product.read_xml_component true false (("tgz").data)
      (("product.TGZ").data) (("doc.xml").data) = .error (("tgz").data) :=
  (c5_amended_container_formats false (("tgz").data) (("product.TGZ").data)
    (("doc.xml").data)).2.2.1 (by decide) (by decide)

/-! ## `archive_path` (lines 168-176, claim C6) -/

/-- The decimal digit character of `n % 10`. -/
def digitChar (n : Nat) : Char :=
  if n % 10 = 0 then '0' else if n % 10 = 1 then '1' else if n % 10 = 2 then '2'
  else if n % 10 = 3 then '3' else if n % 10 = 4 then '4' else if n % 10 = 5 then '5'
  else if n % 10 = 6 then '6' else if n % 10 = 7 then '7' else if n % 10 = 8 then '8'
  else '9'

/-- 4-digit zero-padded decimal rendering (exact for `n ≤ 9999`, the
domain of `datetime.year`). -/
def pad4 (n : Nat) : List Char :=
  [digitChar (n / 1000), digitChar (n / 100), digitChar (n / 10), digitChar n]

/-- 2-digit zero-padded decimal rendering (exact for `n ≤ 99`). -/
def pad2 (n : Nat) : List Char :=
  [digitChar (n / 10), digitChar n]

/-- `validity_start.strftime("%Y%m%d")` (line 169): 4-digit year, 2-digit
month, 2-digit day, all zero-padded. -/
def strftimeYmd (d : PyDatetime) : List Char :=
  pad4 d.year ++ pad2 d.month ++ pad2 d.day

/-- `Sentinel2Product.archive_path(properties)` (lines 168-176):
`os.path.join(mission, product_type, vs[0:4], vs[4:6], vs[6:8])`. -/
def Sentinel2Product.archive_path (product_type mission : List Char)
    (validity_start : PyDatetime) : List Char :=
  let vs := strftimeYmd validity_start
  pyJoin (pyJoin (pyJoin (pyJoin mission product_type) (pySlice vs 0 4))
    (pySlice vs 4 6)) (pySlice vs 6 8)

theorem digitChar_ne_slash (n : Nat) : digitChar n ≠ '/' := by
  unfold digitChar
  repeat' split
  all_goals decide

theorem pyJoin_eq_append (a b : List Char) (ha : a ≠ []) (hal : a.getLast? ≠ some '/')
    (hb : b.head? ≠ some '/') : pyJoin a b = a ++ '/' :: b := by
  unfold pyJoin
  rw [if_neg hb, if_neg]
  simp [ha, hal]

theorem pad4_head (n : Nat) : (pad4 n).head? = some (digitChar (n / 1000)) := rfl

theorem pad2_head (n : Nat) : (pad2 n).head? = some (digitChar (n / 10)) := rfl

theorem pad4_last (n : Nat) : (pad4 n).getLast? = some (digitChar n) := rfl

theorem pad2_last (n : Nat) : (pad2 n).getLast? = some (digitChar n) := rfl

theorem strftime_slice04 (d : PyDatetime) : pySlice (strftimeYmd d) 0 4 = pad4 d.year := rfl

theorem strftime_slice46 (d : PyDatetime) : pySlice (strftimeYmd d) 4 6 = pad2 d.month := rfl

theorem strftime_slice68 (d : PyDatetime) : pySlice (strftimeYmd d) 6 8 = pad2 d.day := rfl

/-- C6: `archive_path` is `mission / product_type / YYYY / MM / DD`, the
date components being the 4-, 2- and 2-digit zero-padded parts of the
validity-start date.  (The shape hypotheses on `mission` and
`product_type` rule out empty or slash-adjacent segments, where
`os.path.join` would merge path components; every registered product type
and mission code satisfies them.) -/
theorem c6_archive_path :
    ∀ (mission product_type : List Char) (d : PyDatetime),
      mission ≠ [] →
      mission.getLast? ≠ some '/' →
      product_type ≠ [] →
      product_type.head? ≠ some '/' →
      product_type.getLast? ≠ some '/' →
      Sentinel2Product.archive_path product_type mission d =
        mission ++ '/' :: product_type ++ '/' :: pad4 d.year ++
          '/' :: pad2 d.month ++ '/' :: pad2 d.day := by
  intro mission product_type d hm hml hp hph hpl
  obtain ⟨q, qs, rfl⟩ : ∃ r rs, product_type = r :: rs := by
    cases product_type with
    | nil => exact absurd rfl hp
    | cons r rs => exact ⟨r, rs, rfl⟩
  have hd4 : (pad4 d.year).head? ≠ some '/' := by
    rw [pad4_head]
    exact fun h => digitChar_ne_slash _ (Option.some.inj h)
  have hd2m : (pad2 d.month).head? ≠ some '/' := by
    rw [pad2_head]
    exact fun h => digitChar_ne_slash _ (Option.some.inj h)
  have hd2d : (pad2 d.day).head? ≠ some '/' := by
    rw [pad2_head]
    exact fun h => digitChar_ne_slash _ (Option.some.inj h)
  have hlast1 : (mission ++ '/' :: q :: qs).getLast? ≠ some '/' := by
    rw [List.getLast?_append_cons, List.getLast?_cons_cons]
    exact hpl
  have hlast2 : ((mission ++ '/' :: q :: qs) ++ '/' :: pad4 d.year).getLast? ≠ some '/' := by
    rw [List.getLast?_append_cons]
    rw [show ('/' :: pad4 d.year).getLast? = some (digitChar d.year) from rfl]
    exact fun h => digitChar_ne_slash _ (Option.some.inj h)
  have hlast3 : (((mission ++ '/' :: q :: qs) ++ '/' :: pad4 d.year)
      ++ '/' :: pad2 d.month).getLast? ≠ some '/' := by
    rw [List.getLast?_append_cons]
    rw [show ('/' :: pad2 d.month).getLast? = some (digitChar d.month) from rfl]
    exact fun h => digitChar_ne_slash _ (Option.some.inj h)
  show pyJoin (pyJoin (pyJoin (pyJoin mission (q :: qs)) (pySlice (strftimeYmd d) 0 4))
    (pySlice (strftimeYmd d) 4 6)) (pySlice (strftimeYmd d) 6 8) = _
  rw [strftime_slice04, strftime_slice46, strftime_slice68]
  rw [pyJoin_eq_append mission (q :: qs) hm hml hph]
  rw [pyJoin_eq_append _ (pad4 d.year) (by simp) hlast1 hd4]
  rw [pyJoin_eq_append _ (pad2 d.month) (by simp) hlast2 hd2m]
  rw [pyJoin_eq_append _ (pad2 d.day) (by simp) hlast3 hd2d]

/-- Witness for C6: mission `S2B`, kind `MSIL1C`, validity start
2021-03-05 gives exactly `S2B/MSIL1C/2021/03/05`. -/
theorem c6_archive_path_witness :
    Sentinel2Product.archive_path (("MSIL1C").data) (("S2B").data) ⟨2021, 3, 5, 0, 0, 0, 0⟩
      = ("S2B/MSIL1C/2021/03/05").data := by
  rw [c6_archive_path (("S2B").data) (("MSIL1C").data) ⟨2021, 3, 5, 0, 0, 0, 0⟩
    (by decide) (by decide) (by decide) (by decide) (by decide)]
  decide

/-! ## Archive member names of `package_tar` / `package_zip`
(lines 113-134, claim C8) -/

/-- Member-name computation shared by `package_tar` (lines 118-120) and
the file branch of `package_zip` (lines 125-133):
`rootlen = len(os.path.dirname(path)) + 1` and the member name is
`path[rootlen:]` — each path's *own* parent directory is stripped.
(For a directory walked by `package_zip`, nested entries get the same
`rootlen` stripped from their full path.) -/
def package_member_name (path : List Char) : List Char :=
  path.drop ((pyDirname path).length + 1)

/-- The (source path → member name) association an export builds, one
member per input path. -/
def package_tar_members (paths : List (List Char)) : List (List Char) :=
  paths.map package_member_name

/-- Longest common prefix of two character lists. -/
def commonPref : List Char → List Char → List Char
  | x :: xs, y :: ys => if x = y then x :: commonPref xs ys else []
  | _, _ => []

/-- Modelled from the spec: the "common parent directory of the inputs" —
the longest common prefix of all input paths, cut back to the last
directory separator (exclusive); empty when the paths share no common
directory. -/
def common_parent_dir (paths : List (List Char)) : List Char :=
  match paths with
  | [] => []
  | p :: ps =>
    let pre := ps.foldl (fun acc q => commonPref acc q) p
    pre.take (pre.length - (pre.reverse.takeWhile (fun c => c ≠ '/')).length - 1)

/-- Modelled from the spec: member names "relative to the common parent
directory of the inputs". -/
def spec_member_names (paths : List (List Char)) : List (List Char) :=
  paths.map (fun p => p.drop ((common_parent_dir paths).length + 1))

/-- Counterexample for C8: for inputs lying in different parent
directories the exported member names strip each path's own directory,
not the common parent: for `/a/x` and `/b/y` the archive members are
named `x` and `y`, while names relative to the common parent directory
would be `a/x` and `b/y`. -/
theorem c8_member_names_counterexample :
    package_tar_members [("/a/x").data, ("/b/y").data]
      = [("x").data, ("y").data] ∧
    spec_member_names [("/a/x").data, ("/b/y").data]
      = [("a/x").data, ("b/y").data] ∧
    package_tar_members [("/a/x").data, ("/b/y").data] ≠
      spec_member_names [("/a/x").data, ("/b/y").data] := by
  refine ⟨by decide, by decide, by decide⟩

/-- C8 (amended): every archive member name is the member's source path
with its *own* parent directory (dirname) stripped; when all inputs share
one parent directory — the usual layout of a product's files — this
coincides with the paths relative to that common parent. -/
theorem c8_amended_member_names :
    ∀ (paths : List (List Char)) (d : List Char),
      (∀ p ∈ paths, pyDirname p = d) →
      package_tar_members paths = paths.map (fun p => p.drop (d.length + 1)) := by
  intro paths d
  induction paths with
  | nil => intro _; rfl
  | cons p ps ih =>
    intro h
    have hp : pyDirname p = d := h p (List.mem_cons_self p ps)
    have hps := ih (fun q hq => h q (List.mem_cons_of_mem p hq))
    simp only [package_tar_members, List.map_cons] at hps ⊢
    rw [show package_member_name p = p.drop (d.length + 1) by
      rw [package_member_name, hp]]
    rw [← hps]

/-- Witness for C8 (amended): two files in the same directory `/a` get
member names relative to `/a`. -/
theorem c8_amended_member_names_witness :
    package_tar_members [("/a/x").data, ("/a/y").data]
      = [("/a/x").data, ("/a/y").data].map
          (fun p => p.drop ((("/a").data).length + 1)) :=
  c8_amended_member_names [("/a/x").data, ("/a/y").data] (("/a").data) (by decide)
